import Mathlib

/-! # News aggregator front end: state and fetch orchestration

A shallow embedding of `src/App.jsx` (the `App` component): the `filters`
object and its three update handlers, the query built by `fetchArticles`, the
four asynchronous functions (`fetchArticles`, `fetchTrendingKeywords`,
`fetchCategoryStats`, `fetchSampleNews`), the effect that re-reads on a
filter change, the selection handlers and what `App` renders; and of the width
of the category bars of `src/components/Sidebar.jsx`.

Modelling conventions.
* React state is one record, `ViewModel`; every `setX(v)` is a field update.
* The network is the environment: each request that the code issues is appended
  to a log, and what the request settles with is an argument (an `...Outcome`).
* An asynchronous function touches the state only in its synchronous prefix
  (up to the first `await`) and in its continuation after the last `await`.
  `fetchArticles` is therefore given in two parts, `fetchArticlesIssue` and
  `fetchArticlesSettle`, which may be interleaved with other events, and as
  their composition `fetchArticles` for a run nothing else interleaves with.
* A `try` block returns the state it reached together with a `Completion`,
  normal or a thrown error with its `message`.
* A JavaScript Number is a rational, `Infinity` or `NaN`; the rounding of each
  arithmetic result to a Number is a parameter `fl`, of which the proofs use
  only what `RoundsToNearest` lists.
-/

namespace NewsApp

/-! ## Data model -/

/-- Article object of the `articles` array: the fields the client reads. -/
structure Article where
  id : Nat
  title : String
  content : String
  source : String
  category : Option String
  sentiment : Option String
  is_fake : Bool
  url : String
deriving DecidableEq, Repr

/-- Entry of `trending_keywords`. -/
structure TrendingKeyword where
  keyword : String
  frequency : Nat
deriving DecidableEq, Repr

/-- Entry of `category_distribution`. -/
structure CategoryStat where
  category : String
  count : Nat
deriving DecidableEq, Repr

/-- The `filters` state: a JavaScript object with string-valued properties, kept
as its own properties in insertion order. -/
structure Filters where
  props : List (String × String)
deriving DecidableEq, Repr

/-- Property read on an object: the value of the first own property with that
key, `none` (JavaScript `undefined`) when there is none. -/
def lookupProp : List (String × String) → String → Option String
  | [], _ => none
  | (k, v) :: rest, key => if k = key then some v else lookupProp rest key

/-- Property write as an object literal performs it after a spread: an existing
key keeps its position and takes the new value, a new key goes last. -/
def assignProp : List (String × String) → String → String → List (String × String)
  | [], key, value => [(key, value)]
  | (k, v) :: rest, key, value =>
      if k = key then (k, value) :: rest else (k, v) :: assignProp rest key value

/-- Read of `filters.key`. -/
def Filters.get (f : Filters) (key : String) : Option String :=
  lookupProp f.props key

/-- Object literal `{ ...prev, [key]: value }`. -/
def Filters.spreadWith (prev : Filters) (key value : String) : Filters :=
  ⟨assignProp prev.props key value⟩

/-- Initial `filters` of `useState` (App.jsx lines 19-24). -/
def initialFilters : Filters :=
  ⟨[("search", ""), ("category", ""), ("sentiment", ""), ("source", "")]⟩

/-- State updater of `handleSearch`: `prev => ({ ...prev, search: query })`. -/
def handleSearch (query : String) (prev : Filters) : Filters :=
  prev.spreadWith "search" query

/-- State updater of `handleCategoryFilter`: `prev => ({ ...prev, category })`. -/
def handleCategoryFilter (category : String) (prev : Filters) : Filters :=
  prev.spreadWith "category" category

/-- State updater of `handleFilterChange`: `prev => ({ ...prev, [type]: value })`. -/
def handleFilterChange (type value : String) (prev : Filters) : Filters :=
  prev.spreadWith type value

/-- JavaScript truthiness of a property read that yields a string or
`undefined`: only a non-empty string is truthy. -/
def truthy : Option String → Bool
  | none => false
  | some s => s ≠ ""

/-- Method `URLSearchParams.append`: the pair goes last. -/
def paramsAppend (params : List (String × String)) (name value : String) :
    List (String × String) :=
  params ++ [(name, value)]

/-- Query of `fetchArticles` (App.jsx lines 34-38), as the list of pairs held by
the `URLSearchParams` object before it is serialised into the URL. -/
def buildParams (filters : Filters) : List (String × String) :=
  let params : List (String × String) := []
  let params :=
    if truthy (filters.get "search")
    then paramsAppend params "search" ((filters.get "search").getD "") else params
  let params :=
    if truthy (filters.get "category") && decide (filters.get "category" ≠ some "all")
    then paramsAppend params "category" ((filters.get "category").getD "") else params
  let params :=
    if truthy (filters.get "sentiment")
    then paramsAppend params "sentiment" ((filters.get "sentiment").getD "") else params
  let params :=
    if truthy (filters.get "source")
    then paramsAppend params "source" ((filters.get "source").getD "") else params
  params

/-- Names of the parameters of a query. -/
def paramNames (params : List (String × String)) : List String :=
  params.map Prod.fst

/-- The React state of `App` (App.jsx lines 12-24). -/
structure ViewModel where
  articles : List Article
  loading : Bool
  error : Option String
  selectedArticle : Option Article
  isModalOpen : Bool
  trendingKeywords : List TrendingKeyword
  categoryStats : List CategoryStat
  filters : Filters
deriving DecidableEq, Repr

/-- State of the first render: the `useState` initial values. -/
def initialViewModel : ViewModel :=
  { articles := [], loading := true, error := none, selectedArticle := none,
    isModalOpen := false, trendingKeywords := [], categoryStats := [],
    filters := initialFilters }

/-- Request that the client sends. -/
inductive Request where
  | getArticles (params : List (String × String))
  | getTrendingKeywords
  | getCategoryStats
  | postBulkFetch
  | postAnalyze
deriving DecidableEq, Repr

/-- State of the component together with the log of the requests issued so far,
oldest first. -/
structure World where
  vm : ViewModel
  issued : List Request
deriving DecidableEq, Repr

/-- Call of `fetch`: the request is logged. -/
def World.issue (w : World) (r : Request) : World :=
  { w with issued := w.issued ++ [r] }

/-- Way a block of statements ends: normally, or by a thrown error of which the
code reads only `message`. -/
inductive Completion where
  | normal
  | throw (message : String)
deriving DecidableEq, Repr

/-- What `await fetch(...)` followed by `await response.json()` can settle with,
for a read whose parsed body has the payload field of type `α`.
* `rejected m`: `fetch` rejects (transport failure) with an error of message `m`;
* `notOk`: a response arrives with `response.ok` false;
* `badBody m`: `response.ok` is true and reading the body throws an error of
  message `m` (`response.json()` rejects, or the body parses to `null` and the
  read of the payload field throws);
* `ok payload`: the body parses; `payload` is the payload field, `none` when
  the field is absent or falsy. -/
inductive ReadOutcome (α : Type) where
  | rejected (message : String)
  | notOk
  | badBody (message : String)
  | ok (payload : Option α)
deriving DecidableEq, Repr

/-- A read failed: every outcome but a parsed body. -/
def ReadOutcome.isFailure {α : Type} : ReadOutcome α → Bool
  | .ok _ => false
  | _ => true

/-- Messages that the platform, not this code, puts in the errors it throws. -/
def ReadOutcome.platformMessages {α : Type} : ReadOutcome α → List String
  | .rejected m => [m]
  | .badBody m => [m]
  | _ => []

/-- What `await fetch(...)` of a POST settles with: a rejection (transport
failure) or a response with its `ok` flag. -/
inductive PostOutcome where
  | rejected (message : String)
  | response (ok : Bool)
deriving DecidableEq, Repr

/-! ## The three reads -/

/-- Synchronous prefix of `fetchArticles` (App.jsx lines 31-40): `setLoading(true)`,
`setError(null)`, the query built from the `filters` that the closure captured,
and the call of `fetch`. -/
def fetchArticlesIssue (filters : Filters) (w : World) : World :=
  let w := { w with vm := { w.vm with loading := true } }
  let w := { w with vm := { w.vm with error := none } }
  w.issue (.getArticles (buildParams filters))

/-- Rest of the `try` block of `fetchArticles` once the awaits settle (lines
40-44): a rejected `fetch` or `response.json()` throws the platform's error,
a response that is not ok throws `new Error('Failed to fetch articles')`, a
parsed body is committed with `setArticles(data.articles || [])`. -/
def fetchArticlesTry (o : ReadOutcome (List Article)) (w : World) : World × Completion :=
  match o with
  | .rejected m => (w, .throw m)
  | .notOk => (w, .throw "Failed to fetch articles")
  | .badBody m => (w, .throw m)
  | .ok payload => ({ w with vm := { w.vm with articles := payload.getD [] } }, .normal)

/-- Continuation of `fetchArticles` after its awaits (lines 40-50): the rest of
the `try` block, `catch` with `setError(err.message)`, `finally` with
`setLoading(false)`. The promise of the function resolves. -/
def fetchArticlesSettle (o : ReadOutcome (List Article)) (w : World) : World × Completion :=
  match fetchArticlesTry o w with
  | (w, .normal) => ({ w with vm := { w.vm with loading := false } }, .normal)
  | (w, .throw message) =>
      let w := { w with vm := { w.vm with error := some message } }
      ({ w with vm := { w.vm with loading := false } }, .normal)

/-- Run of `fetchArticles` with which nothing interleaves. -/
def fetchArticles (filters : Filters) (o : ReadOutcome (List Article)) (w : World) :
    World × Completion :=
  fetchArticlesSettle o (fetchArticlesIssue filters w)

/-- Synchronous prefix of `fetchTrendingKeywords` (line 56): the call of `fetch`. -/
def fetchTrendingKeywordsIssue (w : World) : World :=
  w.issue .getTrendingKeywords

/-- Rest of the `try` block of `fetchTrendingKeywords` (lines 56-60): only a
response that is ok is read, and committed with
`setTrendingKeywords(data.trending_keywords || [])`. -/
def fetchTrendingKeywordsTry (o : ReadOutcome (List TrendingKeyword)) (w : World) :
    World × Completion :=
  match o with
  | .rejected m => (w, .throw m)
  | .notOk => (w, .normal)
  | .badBody m => (w, .throw m)
  | .ok payload => ({ w with vm := { w.vm with trendingKeywords := payload.getD [] } }, .normal)

/-- Continuation of `fetchTrendingKeywords` (lines 56-63): the `catch` block only
logs to the console. -/
def fetchTrendingKeywordsSettle (o : ReadOutcome (List TrendingKeyword)) (w : World) :
    World × Completion :=
  match fetchTrendingKeywordsTry o w with
  | (w, .normal) => (w, .normal)
  | (w, .throw _) => (w, .normal)

/-- Run of `fetchTrendingKeywords` with which nothing interleaves. -/
def fetchTrendingKeywords (o : ReadOutcome (List TrendingKeyword)) (w : World) :
    World × Completion :=
  fetchTrendingKeywordsSettle o (fetchTrendingKeywordsIssue w)

/-- Synchronous prefix of `fetchCategoryStats` (line 69): the call of `fetch`. -/
def fetchCategoryStatsIssue (w : World) : World :=
  w.issue .getCategoryStats

/-- Rest of the `try` block of `fetchCategoryStats` (lines 69-73): only a
response that is ok is read, and committed with
`setCategoryStats(data.category_distribution || [])`. -/
def fetchCategoryStatsTry (o : ReadOutcome (List CategoryStat)) (w : World) :
    World × Completion :=
  match o with
  | .rejected m => (w, .throw m)
  | .notOk => (w, .normal)
  | .badBody m => (w, .throw m)
  | .ok payload => ({ w with vm := { w.vm with categoryStats := payload.getD [] } }, .normal)

/-- Continuation of `fetchCategoryStats` (lines 69-76): the `catch` block only
logs to the console. -/
def fetchCategoryStatsSettle (o : ReadOutcome (List CategoryStat)) (w : World) :
    World × Completion :=
  match fetchCategoryStatsTry o w with
  | (w, .normal) => (w, .normal)
  | (w, .throw _) => (w, .normal)

/-- Run of `fetchCategoryStats` with which nothing interleaves. -/
def fetchCategoryStats (o : ReadOutcome (List CategoryStat)) (w : World) :
    World × Completion :=
  fetchCategoryStatsSettle o (fetchCategoryStatsIssue w)

/-! ## The bulk refresh chain -/

/-- Sequencing of `await f()` with the statements after it: they run only when
`f` completed normally, a throw is passed on. -/
def andThen (r : World × Completion) (rest : World → World × Completion) :
    World × Completion :=
  match r with
  | (w, .normal) => rest w
  | (w, .throw m) => (w, .throw m)

/-- What the network answers to each request of one run of `fetchSampleNews`. -/
structure Env where
  bulkFetch : PostOutcome
  analyze : PostOutcome
  articles : ReadOutcome (List Article)
  trending : ReadOutcome (List TrendingKeyword)
  stats : ReadOutcome (List CategoryStat)
deriving DecidableEq, Repr

/-- The `try` block of `fetchSampleNews` (App.jsx lines 82-100). The response of
the analysis POST is awaited and not inspected. -/
def fetchSampleNewsTry (filters : Filters) (env : Env) (w : World) : World × Completion :=
  let w := { w with vm := { w.vm with loading := true } }
  let w := w.issue .postBulkFetch
  match env.bulkFetch with
  | .rejected m => (w, .throw m)
  | .response ok =>
      if ok then
        let w := w.issue .postAnalyze
        match env.analyze with
        | .rejected m => (w, .throw m)
        | .response _ =>
            andThen (fetchArticles filters env.articles w) fun w =>
            andThen (fetchTrendingKeywords env.trending w) fun w =>
            fetchCategoryStats env.stats w
      else (w, .normal)

/-- Run of `fetchSampleNews` (lines 80-107) with which nothing interleaves:
the `try` block, `catch` with `setError('Failed to fetch sample news')`,
`finally` with `setLoading(false)`. -/
def fetchSampleNews (filters : Filters) (env : Env) (w : World) : World × Completion :=
  match fetchSampleNewsTry filters env w with
  | (w, .normal) => ({ w with vm := { w.vm with loading := false } }, .normal)
  | (w, .throw _) =>
      let w := { w with vm := { w.vm with error := some "Failed to fetch sample news" } }
      ({ w with vm := { w.vm with loading := false } }, .normal)

/-- The three read requests, each built from the given filters. -/
def isRead : Request → Bool
  | .getArticles _ => true
  | .getTrendingKeywords => true
  | .getCategoryStats => true
  | _ => false

/-- An article read, whatever its query. -/
def isArticlesRead : Request → Bool
  | .getArticles _ => true
  | _ => false

/-! ## Interleaved runs

Requests in flight are identified by their position in the log. A filter
change commits the new `filters` and runs the effect of lines 109-113, which
starts the three reads; each read settles in a later event of its own. -/

/-- State of the component, the log, and the requests still in flight. -/
structure Sys where
  world : World
  pending : List Nat
deriving DecidableEq, Repr

/-- Event of an interleaved run. -/
inductive Event where
  | setFilters (f : Filters)
  | articlesSettled (id : Nat) (o : ReadOutcome (List Article))
  | trendingSettled (id : Nat) (o : ReadOutcome (List TrendingKeyword))
  | statsSettled (id : Nat) (o : ReadOutcome (List CategoryStat))
deriving DecidableEq, Repr

/-- The effect `useEffect(..., [filters])` (lines 109-113) in a render whose
`filters` is the committed one: the three functions are called without `await`,
so each runs its synchronous prefix. -/
def runEffect (s : Sys) : Sys :=
  let n := s.world.issued.length
  let w := fetchArticlesIssue s.world.vm.filters s.world
  let w := fetchTrendingKeywordsIssue w
  let w := fetchCategoryStatsIssue w
  { world := w, pending := s.pending ++ [n, n + 1, n + 2] }

/-- One event. A settle event applies only to a request of its kind that is in
flight. -/
def step (s : Sys) : Event → Option Sys
  | .setFilters f =>
      some (runEffect { s with world := { s.world with vm := { s.world.vm with filters := f } } })
  | .articlesSettled id o =>
      if id ∈ s.pending ∧ (s.world.issued.get? id).any isArticlesRead then
        some { world := (fetchArticlesSettle o s.world).1, pending := s.pending.erase id }
      else none
  | .trendingSettled id o =>
      if id ∈ s.pending ∧ s.world.issued.get? id = some .getTrendingKeywords then
        some { world := (fetchTrendingKeywordsSettle o s.world).1, pending := s.pending.erase id }
      else none
  | .statsSettled id o =>
      if id ∈ s.pending ∧ s.world.issued.get? id = some .getCategoryStats then
        some { world := (fetchCategoryStatsSettle o s.world).1, pending := s.pending.erase id }
      else none

/-- A sequence of events, `none` when one of them does not apply. -/
def run (s : Sys) : List Event → Option Sys
  | [] => some s
  | e :: es => (step s e).bind fun s' => run s' es

/-- The component right after mounting, before the first effect. -/
def initialSys : Sys :=
  { world := { vm := initialViewModel, issued := [] }, pending := [] }

/-! ## Sample data -/

/-- An article of the technology category. -/
def sampleArticleA : Article :=
  { id := 1, title := "Chip makers rally", content := "Shares rose.", source := "Wire",
    category := some "technology", sentiment := some "positive", is_fake := false,
    url := "https://example.org/1" }

/-- An article of the sports category. -/
def sampleArticleB : Article :=
  { id := 2, title := "Cup final tonight", content := "Kick-off at eight.", source := "Desk",
    category := some "sports", sentiment := none, is_fake := false,
    url := "https://example.org/2" }

/-- Filter after a click on the Technology category. -/
def filtersA : Filters := handleCategoryFilter "technology" initialFilters

/-- Filter after a later click on the Sports category. -/
def filtersB : Filters := handleCategoryFilter "sports" filtersA

/-- Two filter changes in a row, then the response to the second read, then the
response to the first read. -/
def racingTrace (a b : Filters) (first : Nat) (la lb : Option (List Article)) : List Event :=
  [.setFilters a, .setFilters b, .articlesSettled (first + 3) (.ok lb),
    .articlesSettled first (.ok la)]

/-- A field of the filter counts as empty when it is absent or holds the empty
string. -/
def Filters.isEmptyAt (f : Filters) (key : String) : Prop :=
  f.get key = none ∨ f.get key = some ""

/-- A POST failed: the transport failed or the response is not 2xx. -/
def PostOutcome.isFailure : PostOutcome → Bool
  | .rejected _ => true
  | .response ok => !ok

/-- A state with an article list, trending keywords and category statistics
from earlier successful reads. -/
def sampleWorld : World :=
  { vm :=
      { articles := [sampleArticleA], loading := false, error := none,
        selectedArticle := none, isModalOpen := false,
        trendingKeywords := [⟨"chips", 7⟩, ⟨"cup", 3⟩],
        categoryStats := [⟨"technology", 10⟩, ⟨"business", 5⟩],
        filters := filtersA },
    issued := [] }

/-- Network in which ingestion succeeds and the analysis POST cannot be
delivered. -/
def envAnalysisUnreachable : Env :=
  { bulkFetch := .response true, analyze := .rejected "Failed to fetch",
    articles := .ok (some [sampleArticleB]), trending := .ok (some []),
    stats := .ok (some []) }

/-- Network in which ingestion succeeds, the analysis POST is answered with a
status that is not 2xx, and the three reads succeed. -/
def envAnalysisRefused : Env :=
  { bulkFetch := .response true, analyze := .response false,
    articles := .ok (some [sampleArticleB]), trending := .ok (some [⟨"cup", 4⟩]),
    stats := .ok (some [⟨"sports", 1⟩]) }

/-- Network in which the ingestion POST is answered with a status that is not
2xx. -/
def envIngestionRefused : Env :=
  { bulkFetch := .response false, analyze := .response true,
    articles := .ok (some [sampleArticleB]), trending := .ok (some []),
    stats := .ok (some []) }

/-- Network in which the ingestion POST cannot be delivered. -/
def envIngestionUnreachable : Env :=
  { bulkFetch := .rejected "Failed to fetch", analyze := .response true,
    articles := .ok (some [sampleArticleB]), trending := .ok (some []),
    stats := .ok (some []) }

/-! ## The category bars of `Sidebar` -/

/-- Value of the JavaScript Number expressions of the width computation, whose
operands are counts: a finite number, `Infinity`, or `NaN`. -/
inductive JsNumber where
  | finite (value : ℚ)
  | infinity
  | nan
deriving DecidableEq, Repr

/-- The call `Math.max(...categoryStats.map(s => s.count))` as the width
computation evaluates it, inside the `map` over the entries, where the list
has at least one entry. -/
def mathMax (counts : List Nat) : Nat :=
  counts.foldr max 0

/-- Division `a / b` of two counts. A non-zero divisor gives the exact quotient
rounded to a Number by `fl`; `0 / 0` is `NaN` and a positive count over zero is
`Infinity`. -/
def jsDivide (fl : ℚ → ℚ) (a b : Nat) : JsNumber :=
  if b = 0 then (if a = 0 then .nan else .infinity) else .finite (fl ((a : ℚ) / (b : ℚ)))

/-- Product `x * 100`, rounded to a Number by `fl`. -/
def jsTimes100 (fl : ℚ → ℚ) : JsNumber → JsNumber
  | .finite q => .finite (fl (q * 100))
  | .infinity => .infinity
  | .nan => .nan

/-- The call `Math.min(x, 100)`. -/
def mathMin100 : JsNumber → JsNumber
  | .finite q => .finite (min q 100)
  | .infinity => .finite 100
  | .nan => .nan

/-- Number interpolated into the `width` style of the bar of `stat`
(Sidebar.jsx line 95):
`Math.min((stat.count / Math.max(...categoryStats.map(s => s.count))) * 100, 100)`. -/
def barWidth (fl : ℚ → ℚ) (categoryStats : List CategoryStat) (stat : CategoryStat) :
    JsNumber :=
  mathMin100 (jsTimes100 fl
    (jsDivide fl stat.count (mathMax (categoryStats.map fun s => s.count))))

/-- Widths of the bars that `Sidebar` renders (lines 79-103): one per entry when
`categoryStats.length > 0`, none otherwise. -/
def barWidths (fl : ℚ → ℚ) (categoryStats : List CategoryStat) : List JsNumber :=
  if categoryStats.length > 0 then categoryStats.map (barWidth fl categoryStats) else []

/-- What the proofs use of the rounding of an exact result to the nearest
Number: it is monotone, and it leaves 0, 1/2, 1, 50 and 100, which are Numbers,
as they are. Exact arithmetic, `id`, is one such rounding. -/
def RoundsToNearest (fl : ℚ → ℚ) : Prop :=
  Monotone fl ∧ fl 0 = 0 ∧ fl (1 / 2) = 1 / 2 ∧ fl 1 = 1 ∧ fl 50 = 50 ∧ fl 100 = 100

/-! ## Selection and the modal -/

/-- Handler `handleReadMore` (App.jsx lines 127-130). -/
def handleReadMore (article : Article) (w : World) : World × Completion :=
  let w := { w with vm := { w.vm with selectedArticle := some article } }
  let w := { w with vm := { w.vm with isModalOpen := true } }
  (w, .normal)

/-- The `onClose` of the modal (App.jsx line 230): `() => setIsModalOpen(false)`. -/
def onClose (w : World) : World × Completion :=
  ({ w with vm := { w.vm with isModalOpen := false } }, .normal)

/-! ## What `App` renders -/

/-- The content branch of `App` (App.jsx lines 185-221). -/
inductive Content where
  | loadingSpinner
  | errorPanel (message : String)
  | noArticlesFound
  | articleGrid (cards : List Article)
deriving DecidableEq, Repr

/-- What the `main` element of `App` shows (lines 152-223): the count line of
the header (lines 158-162) with its two optional suffixes, whether the two
buttons are disabled, and the content branch. -/
structure AppView where
  articleCount : Nat
  searchSuffix : Option String
  categorySuffix : Option String
  buttonsDisabled : Bool
  content : Content
deriving DecidableEq, Repr

/-- Render of `App` from its state. The count line is outside the conditional
on `loading` and `error`; the content is the chain of conditionals of lines
185-221, where `error ?` tests the truthiness of a string or `null`. -/
def renderApp (vm : ViewModel) : AppView :=
  { articleCount := vm.articles.length
    searchSuffix :=
      if truthy (vm.filters.get "search") then vm.filters.get "search" else none
    categorySuffix :=
      if truthy (vm.filters.get "category") && decide (vm.filters.get "category" ≠ some "all")
      then vm.filters.get "category" else none
    buttonsDisabled := vm.loading
    content :=
      if vm.loading then .loadingSpinner
      else if truthy vm.error then .errorPanel (vm.error.getD "")
      else if vm.articles.length = 0 then .noArticlesFound
      else .articleGrid vm.articles }

/-! ## One re-fetch cycle -/

/-- A filter change to `f` with the log at length `first`, followed by the
responses to the three reads that the effect starts. -/
def refetchCycle (f : Filters) (first : Nat) (oa : ReadOutcome (List Article))
    (ot : ReadOutcome (List TrendingKeyword)) (oc : ReadOutcome (List CategoryStat)) :
    List Event :=
  [.setFilters f, .articlesSettled first oa, .trendingSettled (first + 1) ot,
    .statsSettled (first + 2) oc]

/-- State of the component after a filter change to `f` and the responses to
its three reads. -/
def afterCycle (f : Filters) (oa : ReadOutcome (List Article))
    (ot : ReadOutcome (List TrendingKeyword)) (oc : ReadOutcome (List CategoryStat))
    (s : Sys) : World :=
  (fetchCategoryStatsSettle oc
    (fetchTrendingKeywordsSettle ot
      (fetchArticlesSettle oa
        (runEffect
          { s with world := { s.world with vm := { s.world.vm with filters := f } } }).world).1).1).1

/-- The four fields of the filter that `fetchArticles` reads, in the order in
which it reads them. -/
def filterFieldNames : List String :=
  ["search", "category", "sentiment", "source"]

/-- The query as the interface describes it: for each of the four fields in
order, one parameter holding the value when the value is not empty and, for
the category, not "all". -/
def describedQuery (f : Filters) : List (String × String) :=
  filterFieldNames.filterMap fun name =>
    match f.get name with
    | some value =>
        if value ≠ "" ∧ ¬ (name = "category" ∧ value = "all") then some (name, value) else none
    | none => none

/-- Category statistics in which no category has an article. -/
def allZeroStats : List CategoryStat :=
  [⟨"tech", 0⟩, ⟨"biz", 0⟩]

/-- Category statistics of the example: ten technology and five business
articles. -/
def exampleStats : List CategoryStat :=
  [⟨"tech", 10⟩, ⟨"biz", 5⟩]

/-! ## Properties -/

/-! ### Object properties -/

theorem lookupProp_assignProp_same (l : List (String × String)) (key value : String) :
    lookupProp (assignProp l key value) key = some value := by
  induction l with
  | nil => simp [assignProp, lookupProp]
  | cons p rest ih =>
      obtain ⟨k, v⟩ := p
      by_cases h : k = key
      · simp [assignProp, lookupProp, h]
      · simp [assignProp, lookupProp, h, ih]

theorem lookupProp_assignProp_other (l : List (String × String)) (key value other : String)
    (h : other ≠ key) :
    lookupProp (assignProp l key value) other = lookupProp l other := by
  induction l with
  | nil =>
      have h' : ¬ key = other := fun e => h e.symm
      simp [assignProp, lookupProp, h']
  | cons p rest ih =>
      obtain ⟨k, v⟩ := p
      by_cases hk : k = key
      · have h' : ¬ key = other := fun e => h e.symm
        simp [assignProp, lookupProp, hk, h']
      · by_cases ho : k = other
        · subst ho
          simp [assignProp, lookupProp, h]
        · simp [assignProp, lookupProp, hk, ho, ih]

theorem get_spreadWith_same (f : Filters) (key value : String) :
    (f.spreadWith key value).get key = some value :=
  lookupProp_assignProp_same f.props key value

theorem get_spreadWith_other (f : Filters) (key value other : String) (h : other ≠ key) :
    (f.spreadWith key value).get other = f.get other :=
  lookupProp_assignProp_other f.props key value other h

/-! ### Interleaved article reads -/

/-- What the effect does to the state: the three requests are logged after the
ones already there, `loading` is set, `error` is cleared. -/
theorem runEffect_eq (s : Sys) :
    runEffect s =
      { world :=
          { vm := { s.world.vm with loading := true, error := none },
            issued := s.world.issued ++
              [.getArticles (buildParams s.world.vm.filters), .getTrendingKeywords,
                .getCategoryStats] },
        pending := s.pending ++
          [s.world.issued.length, s.world.issued.length + 1, s.world.issued.length + 2] } := by
  simp [runEffect, fetchArticlesIssue, fetchTrendingKeywordsIssue, fetchCategoryStatsIssue,
    World.issue]

/-- A successful article response that settles is committed whatever was there. -/
theorem fetchArticlesSettle_ok (payload : Option (List Article)) (w : World) :
    fetchArticlesSettle (.ok payload) w =
      ({ w with vm := { w.vm with articles := payload.getD [], loading := false } },
        .normal) := by
  simp [fetchArticlesSettle, fetchArticlesTry]

/-- Position `k` after a log `l` is position `k` of what was appended to it. -/
theorem get?_append_offset {α : Type} (l xs : List α) (k : Nat) :
    (l ++ xs).get? (l.length + k) = xs.get? k := by
  induction l with
  | nil => simp
  | cons a rest ih =>
      have e : (a :: rest).length + k = (rest.length + k) + 1 := by simp; omega
      rw [e]
      simpa using ih

/-- A filter change always applies: the new filters are committed and the
effect runs. -/
theorem step_setFilters (s : Sys) (f : Filters) :
    step s (.setFilters f) =
      some (runEffect
        { s with world := { s.world with vm := { s.world.vm with filters := f } } }) := rfl

/-- An article response applies when its request is an article read in flight. -/
theorem step_articlesSettled (s : Sys) (id : Nat) (o : ReadOutcome (List Article))
    (q : List (String × String)) (hp : id ∈ s.pending)
    (hq : s.world.issued.get? id = some (.getArticles q)) :
    step s (.articlesSettled id o) =
      some { world := (fetchArticlesSettle o s.world).1, pending := s.pending.erase id } := by
  simp only [step, hp, hq, Option.any_some, isArticlesRead, and_self, if_true]

/-- C1 (as stated, refuted): the read for `filtersA` is issued, the read for
`filtersB` is issued before it settles, the second settles with `[sampleArticleB]` and
then the first settles with `[sampleArticleA]`; the article list ends as the
first read's result, not the second's. -/
theorem C1_earlier_response_overwrites_newer :
    (run initialSys
        (racingTrace filtersA filtersB 0 (some [sampleArticleA]) (some [sampleArticleB]))).map
      (fun s => (s.world.issued, s.world.vm.articles))
      = some ([.getArticles [("category", "technology")], .getTrendingKeywords,
                .getCategoryStats, .getArticles [("category", "sports")],
                .getTrendingKeywords, .getCategoryStats],
              [sampleArticleA]) ∧
    [sampleArticleA] ≠ [sampleArticleB] := by
  decide

/-- C1 (amended): for all filters A and B and all successful responses, when
the read for A is issued, the read for B is issued before A settles, and A
settles after B, every event applies, the log holds A's read before B's, B's
result is committed when B settles, and once both have settled the article
list is A's result: the response that settles last is the one kept. -/
theorem C1_last_settled_response_is_kept (s : Sys) (A B : Filters)
    (LA LB : Option (List Article)) :
    (∃ s3, run s ((racingTrace A B s.world.issued.length LA LB).take 3) = some s3 ∧
      s3.world.vm.articles = LB.getD []) ∧
    ∃ s4, run s (racingTrace A B s.world.issued.length LA LB) = some s4 ∧
      s4.world.issued = s.world.issued ++
        [.getArticles (buildParams A), .getTrendingKeywords, .getCategoryStats,
          .getArticles (buildParams B), .getTrendingKeywords, .getCategoryStats] ∧
      s4.world.vm.articles = LA.getD [] := by
  -- the state after the two filter changes
  obtain ⟨s2, hs2, hiss, hpend⟩ : ∃ s2 : Sys,
      (step s (.setFilters A)).bind (fun s1 => step s1 (.setFilters B)) = some s2 ∧
      s2.world.issued = s.world.issued ++
        [.getArticles (buildParams A), .getTrendingKeywords, .getCategoryStats,
          .getArticles (buildParams B), .getTrendingKeywords, .getCategoryStats] ∧
      s2.pending = s.pending ++
        [s.world.issued.length, s.world.issued.length + 1, s.world.issued.length + 2,
          s.world.issued.length + 3, s.world.issued.length + 4,
          s.world.issued.length + 5] := by
    refine ⟨_, by rw [step_setFilters, Option.some_bind, step_setFilters], ?_, ?_⟩
    · simp [runEffect_eq]
    · simp [runEffect_eq]
  -- B's response applies
  have hB : step s2 (.articlesSettled (s.world.issued.length + 3) (.ok LB)) =
      some { world := (fetchArticlesSettle (.ok LB) s2.world).1,
             pending := s2.pending.erase (s.world.issued.length + 3) } := by
    apply step_articlesSettled s2 _ _ (buildParams B)
    · rw [hpend]; simp
    · rw [hiss, get?_append_offset]; rfl
  -- A's response applies afterwards
  have hA : step { world := (fetchArticlesSettle (.ok LB) s2.world).1,
                   pending := s2.pending.erase (s.world.issued.length + 3) }
        (.articlesSettled s.world.issued.length (.ok LA)) =
      some { world := (fetchArticlesSettle (.ok LA)
                        (fetchArticlesSettle (.ok LB) s2.world).1).1,
             pending := (s2.pending.erase (s.world.issued.length + 3)).erase
                          s.world.issued.length } := by
    apply step_articlesSettled _ _ _ (buildParams A)
    · show s.world.issued.length ∈ s2.pending.erase (s.world.issued.length + 3)
      rw [List.mem_erase_of_ne (by omega), hpend]
      simp
    · show (fetchArticlesSettle (.ok LB) s2.world).1.issued.get? s.world.issued.length = _
      rw [fetchArticlesSettle_ok]
      show s2.world.issued.get? s.world.issued.length = _
      rw [hiss]
      have := get?_append_offset s.world.issued
        [Request.getArticles (buildParams A), Request.getTrendingKeywords,
          Request.getCategoryStats, Request.getArticles (buildParams B),
          Request.getTrendingKeywords, Request.getCategoryStats] 0
      simpa using this
  have hrun3 : run s ((racingTrace A B s.world.issued.length LA LB).take 3) =
      some { world := (fetchArticlesSettle (.ok LB) s2.world).1,
             pending := s2.pending.erase (s.world.issued.length + 3) } := by
    show (step s (.setFilters A)).bind (fun s1 =>
      (step s1 (.setFilters B)).bind (fun s2 =>
        (step s2 (.articlesSettled (s.world.issued.length + 3) (.ok LB))).bind
          (fun s3 => some s3))) = _
    rw [← Option.bind_assoc, hs2, Option.some_bind, hB, Option.some_bind]
  have hrun4 : run s (racingTrace A B s.world.issued.length LA LB) =
      some { world := (fetchArticlesSettle (.ok LA)
                        (fetchArticlesSettle (.ok LB) s2.world).1).1,
             pending := (s2.pending.erase (s.world.issued.length + 3)).erase
                          s.world.issued.length } := by
    show (step s (.setFilters A)).bind (fun s1 =>
      (step s1 (.setFilters B)).bind (fun s2 =>
        (step s2 (.articlesSettled (s.world.issued.length + 3) (.ok LB))).bind
          (fun s3 => (step s3 (.articlesSettled s.world.issued.length (.ok LA))).bind
            (fun s4 => some s4)))) = _
    rw [← Option.bind_assoc, hs2, Option.some_bind, hB, Option.some_bind, hA, Option.some_bind]
  refine ⟨⟨_, hrun3, ?_⟩, ⟨_, hrun4, ?_, ?_⟩⟩
  · rw [fetchArticlesSettle_ok]
  · rw [fetchArticlesSettle_ok, fetchArticlesSettle_ok]
    exact hiss
  · rw [fetchArticlesSettle_ok]

/-! ### The article query -/

/-- The query is the concatenation of one optional parameter per field, in the
order search, category, sentiment, source. -/
theorem buildParams_eq (f : Filters) :
    buildParams f =
      (if truthy (f.get "search") then [("search", (f.get "search").getD "")] else []) ++
      ((if truthy (f.get "category") && decide (f.get "category" ≠ some "all")
          then [("category", (f.get "category").getD "")] else []) ++
      ((if truthy (f.get "sentiment")
          then [("sentiment", (f.get "sentiment").getD "")] else []) ++
      (if truthy (f.get "source") then [("source", (f.get "source").getD "")] else []))) := by
  unfold buildParams paramsAppend
  split_ifs <;> rfl

theorem search_mem_paramNames (f : Filters) :
    "search" ∈ paramNames (buildParams f) ↔ truthy (f.get "search") = true := by
  rw [buildParams_eq]
  unfold paramNames
  split_ifs <;> simp [*]

theorem category_mem_paramNames (f : Filters) :
    "category" ∈ paramNames (buildParams f) ↔
      (truthy (f.get "category") && decide (f.get "category" ≠ some "all")) = true := by
  rw [buildParams_eq]
  unfold paramNames
  by_cases hc : (truthy (f.get "category") && decide (f.get "category" ≠ some "all")) = true
  · rw [if_pos hc]
    simp only [List.map_append, List.mem_append, List.map_cons, List.mem_cons, true_or, or_true,
      hc]
  · rw [if_neg hc]
    simp only [hc, iff_false]
    split_ifs <;> simp

theorem sentiment_mem_paramNames (f : Filters) :
    "sentiment" ∈ paramNames (buildParams f) ↔ truthy (f.get "sentiment") = true := by
  rw [buildParams_eq]
  unfold paramNames
  split_ifs <;> simp [*]

theorem source_mem_paramNames (f : Filters) :
    "source" ∈ paramNames (buildParams f) ↔ truthy (f.get "source") = true := by
  rw [buildParams_eq]
  unfold paramNames
  split_ifs <;> simp [*]

/-- An empty field is falsy. -/
theorem truthy_of_isEmptyAt (f : Filters) (key : String) (h : f.isEmptyAt key) :
    truthy (f.get key) = false := by
  rcases h with h | h <;> simp [h, truthy]

/-- C2 (as stated, refuted): a filter whose sentiment is "all" yields a query
that does carry a sentiment parameter. -/
theorem C2_sentiment_all_is_sent :
    (handleFilterChange "sentiment" "all" initialFilters).get "sentiment" = some "all" ∧
    "sentiment" ∈ paramNames (buildParams (handleFilterChange "sentiment" "all" initialFilters)) := by
  decide

/-- C2 (amended): for every filter, the query has no parameter for a field
among search, category, sentiment and source that is empty, and no category
parameter when the category is "all"; a search, sentiment or source equal to
"all" is sent as it is; the filter with search "ai" and category "all" yields
the query that holds only search=ai. -/
theorem C2_query_omits_empty_fields_and_all_category (f : Filters) :
    (f.isEmptyAt "search" → "search" ∉ paramNames (buildParams f)) ∧
    (f.isEmptyAt "category" ∨ f.get "category" = some "all" →
      "category" ∉ paramNames (buildParams f)) ∧
    (f.isEmptyAt "sentiment" → "sentiment" ∉ paramNames (buildParams f)) ∧
    (f.isEmptyAt "source" → "source" ∉ paramNames (buildParams f)) ∧
    (f.get "search" = some "all" → ("search", "all") ∈ buildParams f) ∧
    (f.get "sentiment" = some "all" → ("sentiment", "all") ∈ buildParams f) ∧
    (f.get "source" = some "all" → ("source", "all") ∈ buildParams f) ∧
    buildParams ⟨[("search", "ai"), ("category", "all")]⟩ = [("search", "ai")] := by
  refine ⟨?_, ?_, ?_, ?_, ?_, ?_, ?_, by decide⟩
  · intro h
    rw [search_mem_paramNames, truthy_of_isEmptyAt f _ h]
    decide
  · rintro (h | h)
    · rw [category_mem_paramNames, truthy_of_isEmptyAt f _ h]
      simp
    · rw [category_mem_paramNames, h]
      decide
  · intro h
    rw [sentiment_mem_paramNames, truthy_of_isEmptyAt f _ h]
    decide
  · intro h
    rw [source_mem_paramNames, truthy_of_isEmptyAt f _ h]
    decide
  · intro h
    rw [buildParams_eq, h]
    simp [truthy]
  · intro h
    rw [buildParams_eq, h]
    simp [truthy]
  · intro h
    rw [buildParams_eq, h]
    simp [truthy]

/-- Witness of C2 (amended) at the initial filter after a search for "all": no
category parameter, and the search is sent. -/
theorem C2_query_omits_empty_fields_and_all_category_witness :
    "category" ∉ paramNames (buildParams (handleSearch "all" initialFilters)) ∧
    ("search", "all") ∈ buildParams (handleSearch "all" initialFilters) :=
  ⟨(C2_query_omits_empty_fields_and_all_category (handleSearch "all" initialFilters)).2.1
      (Or.inl (Or.inr (by decide))),
    (C2_query_omits_empty_fields_and_all_category (handleSearch "all" initialFilters)).2.2.2.2.1
      (by decide)⟩

/-! ### The primary read -/

/-- What a run of `fetchArticles` leaves when the read fails: the message of
the thrown error in `error`, `loading` false, everything else as before. -/
theorem fetchArticles_failure (filters : Filters) (o : ReadOutcome (List Article)) (w : World)
    (hfail : o.isFailure = true) :
    ∃ message, (message = "Failed to fetch articles" ∨ message ∈ o.platformMessages) ∧
      fetchArticles filters o w =
        ({ vm := { w.vm with loading := false, error := some message },
           issued := w.issued ++ [.getArticles (buildParams filters)] }, .normal) := by
  cases o with
  | rejected m =>
      exact ⟨m, Or.inr (by simp [ReadOutcome.platformMessages]), rfl⟩
  | notOk =>
      exact ⟨_, Or.inl rfl, rfl⟩
  | badBody m =>
      exact ⟨m, Or.inr (by simp [ReadOutcome.platformMessages]), rfl⟩
  | ok payload => simp [ReadOutcome.isFailure] at hfail

/-- C3 (as stated, refuted): on a state that holds an article, a transport
failure whose error has the empty message is a failure of the article read
after which `error` holds the empty string, which is not a non-empty message;
`App` then renders the article grid and no error panel. -/
theorem C3_empty_platform_message_is_stored :
    (ReadOutcome.rejected "" : ReadOutcome (List Article)).isFailure = true ∧
    (fetchArticles filtersA (.rejected "") sampleWorld).1.vm.loading = false ∧
    (fetchArticles filtersA (.rejected "") sampleWorld).1.vm.error = some "" ∧
    (renderApp (fetchArticles filtersA (.rejected "") sampleWorld).1.vm).content
      = .articleGrid [sampleArticleA] := by
  decide

/-- C3 (amended): for every prior state and every failure of the article read
(response not ok, transport failure, unparsable body), the call ends normally
with `loading` false, `error` set to the message of the failure, and
`trendingKeywords` and `categoryStats` as before the call. The message is the
non-empty "Failed to fetch articles" for a response that is not ok, and the
message of the thrown error for a transport failure or an unparsable body, so
it is non-empty whenever the platform's message is. -/
theorem C3_failed_primary_read_stores_message (filters : Filters)
    (o : ReadOutcome (List Article)) (w : World) (hfail : o.isFailure = true) :
    (fetchArticles filters o w).2 = .normal ∧
    (fetchArticles filters o w).1.vm.loading = false ∧
    (∃ message, (fetchArticles filters o w).1.vm.error = some message) ∧
    (o = .notOk →
      (fetchArticles filters o w).1.vm.error = some "Failed to fetch articles") ∧
    "Failed to fetch articles" ≠ "" ∧
    (∀ m, o = .rejected m ∨ o = .badBody m →
      (fetchArticles filters o w).1.vm.error = some m) ∧
    ((∀ m ∈ o.platformMessages, m ≠ "") →
      ∃ message, (fetchArticles filters o w).1.vm.error = some message ∧ message ≠ "") ∧
    (fetchArticles filters o w).1.vm.trendingKeywords = w.vm.trendingKeywords ∧
    (fetchArticles filters o w).1.vm.categoryStats = w.vm.categoryStats := by
  obtain ⟨message, hm, h⟩ := fetchArticles_failure filters o w hfail
  refine ⟨by rw [h], by rw [h], ⟨message, by rw [h]⟩, ?_, by decide, ?_, ?_,
    by rw [h], by rw [h]⟩
  · intro ho
    subst ho
    rfl
  · rintro m (ho | ho) <;> subst ho <;> rfl
  · intro hmsg
    refine ⟨message, by rw [h], ?_⟩
    rcases hm with hm | hm
    · rw [hm]; decide
    · exact hmsg message hm

/-- Witness of C3 (amended): a transport failure with the message "Failed to
fetch" on a state that holds trending keywords and category statistics. -/
theorem C3_failed_primary_read_stores_message_witness :
    (ReadOutcome.rejected "Failed to fetch" : ReadOutcome (List Article)).isFailure = true ∧
    (fetchArticles filtersA (.rejected "Failed to fetch") sampleWorld).1.vm.loading = false ∧
    (fetchArticles filtersA (.rejected "Failed to fetch") sampleWorld).1.vm.error
      = some "Failed to fetch" ∧
    (fetchArticles filtersA (.rejected "Failed to fetch") sampleWorld).1.vm.trendingKeywords
      = [⟨"chips", 7⟩, ⟨"cup", 3⟩] ∧
    (fetchArticles filtersA (.rejected "Failed to fetch") sampleWorld).1.vm.categoryStats
      = [⟨"technology", 10⟩, ⟨"business", 5⟩] :=
  ⟨by decide,
    (C3_failed_primary_read_stores_message filtersA (.rejected "Failed to fetch") sampleWorld
      (by decide)).2.1,
    (C3_failed_primary_read_stores_message filtersA (.rejected "Failed to fetch") sampleWorld
      (by decide)).2.2.2.2.2.1 "Failed to fetch" (Or.inl rfl),
    (C3_failed_primary_read_stores_message filtersA (.rejected "Failed to fetch") sampleWorld
      (by decide)).2.2.2.2.2.2.2⟩

/-- C5: for every prior state and every successful article response, after
`fetchArticles` the article list is the payload list in the server's order,
the empty list when the payload has no articles field; no entry of the
previous list that is not in the payload remains; `error` is null and
`loading` is false. -/
theorem C5_ready_replaces_list_wholesale (filters : Filters)
    (payload : Option (List Article)) (w : World) :
    (fetchArticles filters (.ok payload) w).1.vm.articles = payload.getD [] ∧
    (fetchArticles filters (.ok none) w).1.vm.articles = [] ∧
    (∀ a, a ∈ w.vm.articles → a ∉ payload.getD [] →
      a ∉ (fetchArticles filters (.ok payload) w).1.vm.articles) ∧
    (fetchArticles filters (.ok payload) w).1.vm.error = none ∧
    (fetchArticles filters (.ok payload) w).1.vm.loading = false ∧
    (fetchArticles filters (.ok payload) w).2 = .normal :=
  ⟨rfl, rfl, fun _ _ h => h, rfl, rfl, rfl⟩

/-- Witness of C5: the list that held `sampleArticleA` becomes `[sampleArticleB]`. -/
theorem C5_ready_replaces_list_wholesale_witness :
    sampleArticleA ∈ sampleWorld.vm.articles ∧
    sampleArticleA ∉
      (fetchArticles filtersB (.ok (some [sampleArticleB])) sampleWorld).1.vm.articles :=
  ⟨by decide,
    (C5_ready_replaces_list_wholesale filtersB (some [sampleArticleB]) sampleWorld).2.2.1
      sampleArticleA (by decide) (by decide)⟩

/-! ### The filter handlers -/

/-- C6: for every filter, `handleSearch`, `handleCategoryFilter` and
`handleFilterChange` each yield a filter whose named field holds the given
value and whose every other field is the one of the filter they started
from. -/
theorem C6_handlers_change_only_named_field (f : Filters) (text cat name value : String) :
    ((handleSearch text f).get "search" = some text ∧
      ∀ key, key ≠ "search" → (handleSearch text f).get key = f.get key) ∧
    ((handleCategoryFilter cat f).get "category" = some cat ∧
      ∀ key, key ≠ "category" → (handleCategoryFilter cat f).get key = f.get key) ∧
    ((handleFilterChange name value f).get name = some value ∧
      ∀ key, key ≠ name → (handleFilterChange name value f).get key = f.get key) :=
  ⟨⟨get_spreadWith_same f _ _, fun key h => get_spreadWith_other f _ _ key h⟩,
    ⟨get_spreadWith_same f _ _, fun key h => get_spreadWith_other f _ _ key h⟩,
    ⟨get_spreadWith_same f _ _, fun key h => get_spreadWith_other f _ _ key h⟩⟩

/-- Witness of C6: a search on a filter that carries a category keeps the
category. -/
theorem C6_handlers_change_only_named_field_witness :
    (handleSearch "ai" filtersA).get "search" = some "ai" ∧
    (handleSearch "ai" filtersA).get "category" = filtersA.get "category" :=
  ⟨(C6_handlers_change_only_named_field filtersA "ai" "sports" "source" "Wire").1.1,
    (C6_handlers_change_only_named_field filtersA "ai" "sports" "source" "Wire").1.2
      "category" (by decide)⟩

/-! ### The best-effort reads -/

/-- A failed trending read leaves the whole component state as it was. -/
theorem fetchTrendingKeywords_failure (o : ReadOutcome (List TrendingKeyword)) (w : World)
    (hfail : o.isFailure = true) :
    fetchTrendingKeywords o w =
      ({ vm := w.vm, issued := w.issued ++ [.getTrendingKeywords] }, .normal) := by
  cases o with
  | ok payload => simp [ReadOutcome.isFailure] at hfail
  | _ => rfl

/-- A failed category-statistics read leaves the whole component state as it was. -/
theorem fetchCategoryStats_failure (o : ReadOutcome (List CategoryStat)) (w : World)
    (hfail : o.isFailure = true) :
    fetchCategoryStats o w =
      ({ vm := w.vm, issued := w.issued ++ [.getCategoryStats] }, .normal) := by
  cases o with
  | ok payload => simp [ReadOutcome.isFailure] at hfail
  | _ => rfl

/-- C7 (as stated, refuted): on a state that holds trending keywords and
category statistics, a trending read that fails with a response that is not ok
leaves the keywords in place, not the empty sequence, and so does a failed
category-statistics read with the statistics. -/
theorem C7_failed_best_effort_read_keeps_previous :
    (fetchTrendingKeywords .notOk sampleWorld).1.vm.trendingKeywords
      = [⟨"chips", 7⟩, ⟨"cup", 3⟩] ∧
    (fetchTrendingKeywords .notOk sampleWorld).1.vm.trendingKeywords ≠ [] ∧
    (fetchCategoryStats (.rejected "Failed to fetch") sampleWorld).1.vm.categoryStats
      = [⟨"technology", 10⟩, ⟨"business", 5⟩] ∧
    (fetchCategoryStats (.rejected "Failed to fetch") sampleWorld).1.vm.categoryStats ≠ [] := by
  decide

/-- C7 (amended): for every prior state and every failure (response not ok,
transport failure, unparsable body) of the trending read, the trending
keywords after `fetchTrendingKeywords` are the ones before it, hence empty
exactly when they were empty before, and no error is stored; likewise the
category statistics after a failed `fetchCategoryStats`. -/
theorem C7_failed_best_effort_read_changes_nothing
    (ot : ReadOutcome (List TrendingKeyword)) (oc : ReadOutcome (List CategoryStat))
    (w : World) (ht : ot.isFailure = true) (hc : oc.isFailure = true) :
    (fetchTrendingKeywords ot w).1.vm.trendingKeywords = w.vm.trendingKeywords ∧
    (fetchTrendingKeywords ot w).1.vm.error = w.vm.error ∧
    (fetchCategoryStats oc w).1.vm.categoryStats = w.vm.categoryStats ∧
    (fetchCategoryStats oc w).1.vm.error = w.vm.error := by
  rw [fetchTrendingKeywords_failure ot w ht, fetchCategoryStats_failure oc w hc]
  exact ⟨rfl, rfl, rfl, rfl⟩

/-- Witness of C7 (amended): an unparsable trending body and a category
statistics response that is not ok, at the start of the application, where
both sequences are empty. -/
theorem C7_failed_best_effort_read_changes_nothing_witness :
    (fetchTrendingKeywords (.badBody "Unexpected token") initialSys.world).1.vm.trendingKeywords
      = [] ∧
    (fetchTrendingKeywords (.badBody "Unexpected token") initialSys.world).1.vm.error
      = none ∧
    (fetchCategoryStats .notOk initialSys.world).1.vm.categoryStats = [] ∧
    (fetchCategoryStats .notOk initialSys.world).1.vm.error = none :=
  C7_failed_best_effort_read_changes_nothing (.badBody "Unexpected token") .notOk
    initialSys.world (by decide) (by decide)

/-- C8: for every prior state and every outcome of `fetchTrendingKeywords` and
of `fetchCategoryStats` (any payload, response not ok, transport failure,
unparsable body), the call ends normally and leaves `articles`, `loading` and
`error` as they were; of the state only `trendingKeywords`, respectively
`categoryStats`, may differ afterwards. -/
theorem C8_best_effort_reads_leave_main_state
    (ot : ReadOutcome (List TrendingKeyword)) (oc : ReadOutcome (List CategoryStat))
    (w : World) :
    ((fetchTrendingKeywords ot w).2 = .normal ∧
      (fetchTrendingKeywords ot w).1.vm.articles = w.vm.articles ∧
      (fetchTrendingKeywords ot w).1.vm.loading = w.vm.loading ∧
      (fetchTrendingKeywords ot w).1.vm.error = w.vm.error ∧
      { (fetchTrendingKeywords ot w).1.vm with trendingKeywords := w.vm.trendingKeywords }
        = w.vm) ∧
    ((fetchCategoryStats oc w).2 = .normal ∧
      (fetchCategoryStats oc w).1.vm.articles = w.vm.articles ∧
      (fetchCategoryStats oc w).1.vm.loading = w.vm.loading ∧
      (fetchCategoryStats oc w).1.vm.error = w.vm.error ∧
      { (fetchCategoryStats oc w).1.vm with categoryStats := w.vm.categoryStats } = w.vm) := by
  constructor
  · cases ot <;> exact ⟨rfl, rfl, rfl, rfl, rfl⟩
  · cases oc <;> exact ⟨rfl, rfl, rfl, rfl, rfl⟩

/-! ### The bulk refresh chain -/

/-- A run of `fetchArticles` ends normally, logs its one request, and leaves
in `error` what depends on the outcome alone. -/
theorem fetchArticles_run (filters : Filters) (o : ReadOutcome (List Article)) (w : World) :
    ∃ vm, fetchArticles filters o w =
      ({ vm := vm, issued := w.issued ++ [.getArticles (buildParams filters)] }, .normal) ∧
      vm.loading = false ∧
      vm.error = (fetchArticles filters o { w with issued := [] }).1.vm.error ∧
      vm.trendingKeywords = w.vm.trendingKeywords ∧ vm.categoryStats = w.vm.categoryStats := by
  cases o <;> exact ⟨_, rfl, rfl, rfl, rfl, rfl⟩

/-- A run of `fetchTrendingKeywords` ends normally and logs its one request. -/
theorem fetchTrendingKeywords_run (o : ReadOutcome (List TrendingKeyword)) (w : World) :
    ∃ vm, fetchTrendingKeywords o w =
      ({ vm := vm, issued := w.issued ++ [.getTrendingKeywords] }, .normal) ∧
      vm.loading = w.vm.loading ∧ vm.error = w.vm.error ∧ vm.articles = w.vm.articles := by
  cases o <;> exact ⟨_, rfl, rfl, rfl, rfl⟩

/-- A run of `fetchCategoryStats` ends normally and logs its one request. -/
theorem fetchCategoryStats_run (o : ReadOutcome (List CategoryStat)) (w : World) :
    ∃ vm, fetchCategoryStats o w =
      ({ vm := vm, issued := w.issued ++ [.getCategoryStats] }, .normal) ∧
      vm.loading = w.vm.loading ∧ vm.error = w.vm.error ∧ vm.articles = w.vm.articles := by
  cases o <;> exact ⟨_, rfl, rfl, rfl, rfl⟩

/-- The chain when both POSTs are answered: the response to the analysis POST
plays no part, the three reads run in order, and `error` is the one the
article read leaves. -/
theorem fetchSampleNews_both_answered (filters : Filters) (env : Env) (w : World)
    (ok : Bool) (hb : env.bulkFetch = .response true) (ha : env.analyze = .response ok) :
    (fetchSampleNews filters env w).1.issued =
      w.issued ++ [.postBulkFetch, .postAnalyze, .getArticles (buildParams filters),
        .getTrendingKeywords, .getCategoryStats] ∧
    (fetchSampleNews filters env w).1.vm.error =
      (fetchArticles filters env.articles { w with issued := [] }).1.vm.error ∧
    (fetchSampleNews filters env w).1.vm.loading = false := by
  obtain ⟨vm1, h1, -, e1, -, -⟩ := fetchArticles_run filters env.articles
    (World.issue (World.issue { w with vm := { w.vm with loading := true } } .postBulkFetch)
      .postAnalyze)
  obtain ⟨vm2, h2, -, e2, -⟩ := fetchTrendingKeywords_run env.trending
    { vm := vm1, issued := (World.issue (World.issue
        { w with vm := { w.vm with loading := true } } .postBulkFetch) .postAnalyze).issued ++
        [.getArticles (buildParams filters)] }
  obtain ⟨vm3, h3, -, e3, -⟩ := fetchCategoryStats_run env.stats
    { vm := vm2, issued := ((World.issue (World.issue
        { w with vm := { w.vm with loading := true } } .postBulkFetch) .postAnalyze).issued ++
        [.getArticles (buildParams filters)]) ++ [.getTrendingKeywords] }
  have hrun : fetchSampleNewsTry filters env w =
      ({ vm := vm3, issued := (((World.issue (World.issue
        { w with vm := { w.vm with loading := true } } .postBulkFetch) .postAnalyze).issued ++
        [.getArticles (buildParams filters)]) ++ [.getTrendingKeywords]) ++
        [.getCategoryStats] }, .normal) := by
    simp only [fetchSampleNewsTry, hb, ha, if_true, h1, andThen, h2, h3]
  have herr : vm3.error = (fetchArticles filters env.articles { w with issued := [] }).1.vm.error := by
    rw [e3, e2, e1]
    cases env.articles <;> rfl
  simp only [fetchSampleNews, hrun]
  refine ⟨?_, herr, trivial⟩
  simp [World.issue]

/-- C4 (as stated, refuted): ingestion succeeds and the analysis POST fails by
a transport failure; the log then holds the two POSTs and no read. -/
theorem C4_analysis_transport_failure_skips_reads :
    envAnalysisUnreachable.bulkFetch = .response true ∧
    envAnalysisUnreachable.analyze.isFailure = true ∧
    (fetchSampleNews filtersA envAnalysisUnreachable sampleWorld).1.issued
      = [.postBulkFetch, .postAnalyze] ∧
    ((fetchSampleNews filtersA envAnalysisUnreachable sampleWorld).1.issued.filter isRead).length
      = 0 := by
  decide

/-- C4 (amended): for every run of `fetchSampleNews` in which the ingestion
POST succeeds, when the analysis POST is answered with a status that is not
2xx the three reads (articles, trending keywords, category statistics) are
issued afterwards, once each; when the analysis POST fails by a transport
failure no read is issued and the generic message is stored. -/
theorem C4_reads_follow_answered_analysis (filters : Filters) (env : Env) (w : World)
    (hb : env.bulkFetch = .response true) :
    (env.analyze = .response false →
      (fetchSampleNews filters env w).1.issued =
        w.issued ++ [.postBulkFetch, .postAnalyze, .getArticles (buildParams filters),
          .getTrendingKeywords, .getCategoryStats]) ∧
    (∀ m, env.analyze = .rejected m →
      (fetchSampleNews filters env w).1.issued = w.issued ++ [.postBulkFetch, .postAnalyze] ∧
      (fetchSampleNews filters env w).1.vm.error = some "Failed to fetch sample news") := by
  constructor
  · intro ha
    exact (fetchSampleNews_both_answered filters env w false hb ha).1
  · intro m ha
    simp [fetchSampleNews, fetchSampleNewsTry, hb, ha, World.issue]

/-- Witness of C4 (amended): ingestion succeeds, the analysis POST is answered
with a status that is not 2xx, and the three reads follow. -/
theorem C4_reads_follow_answered_analysis_witness :
    envAnalysisRefused.bulkFetch = .response true ∧
    envAnalysisRefused.analyze = .response false ∧
    (fetchSampleNews filtersA envAnalysisRefused sampleWorld).1.issued =
      sampleWorld.issued ++ [.postBulkFetch, .postAnalyze,
        .getArticles (buildParams filtersA), .getTrendingKeywords, .getCategoryStats] :=
  ⟨rfl, rfl,
    (C4_reads_follow_answered_analysis filtersA envAnalysisRefused sampleWorld rfl).1 rfl⟩

/-- The chain when the ingestion POST is answered with a status that is not
2xx: nothing but `loading` is written. -/
theorem fetchSampleNews_ingestion_refused (filters : Filters) (env : Env) (w : World)
    (hb : env.bulkFetch = .response false) :
    fetchSampleNews filters env w =
      ({ vm := { w.vm with loading := false }, issued := w.issued ++ [.postBulkFetch] },
        .normal) := by
  simp [fetchSampleNews, fetchSampleNewsTry, hb, World.issue]

/-- The chain when the ingestion POST cannot be delivered: the generic message
is stored and `loading` is reset. -/
theorem fetchSampleNews_ingestion_rejected (filters : Filters) (env : Env) (w : World)
    (m : String) (hb : env.bulkFetch = .rejected m) :
    fetchSampleNews filters env w =
      ({ vm := { w.vm with loading := false, error := some "Failed to fetch sample news" },
         issued := w.issued ++ [.postBulkFetch] }, .normal) := by
  simp [fetchSampleNews, fetchSampleNewsTry, hb, World.issue]

/-- What a run of `fetchSampleNews` leaves in `error`: the generic message
after a transport failure of either POST; what was there after an ingestion
POST answered with a status that is not 2xx; and, the answer to the analysis
POST not being inspected, what the article read that follows leaves, null
when that read succeeds. -/
theorem fetchSampleNews_error (filters : Filters) (env : Env) (w : World) :
    (∀ m, env.bulkFetch = .rejected m →
      (fetchSampleNews filters env w).1.vm.error = some "Failed to fetch sample news") ∧
    (∀ m, env.bulkFetch = .response true → env.analyze = .rejected m →
      (fetchSampleNews filters env w).1.vm.error = some "Failed to fetch sample news") ∧
    (env.bulkFetch = .response false →
      (fetchSampleNews filters env w).1.vm.error = w.vm.error) ∧
    (∀ ok, env.bulkFetch = .response true → env.analyze = .response ok →
      (fetchSampleNews filters env w).1.vm.error =
        (fetchArticles filters env.articles { w with issued := [] }).1.vm.error ∧
      ∀ payload, env.articles = .ok payload →
        (fetchSampleNews filters env w).1.vm.error = none) := by
  refine ⟨?_, ?_, ?_, ?_⟩
  · intro m hb
    rw [fetchSampleNews_ingestion_rejected filters env w m hb]
  · intro m hb ha
    simp [fetchSampleNews, fetchSampleNewsTry, hb, ha, World.issue]
  · intro hb
    rw [fetchSampleNews_ingestion_refused filters env w hb]
  · intro ok hb ha
    have h := (fetchSampleNews_both_answered filters env w ok hb ha).2.1
    refine ⟨h, ?_⟩
    intro payload hp
    rw [h, hp]
    rfl

/-- C9 (the code at the failing input): on a state without an error the
ingestion POST is answered with a status that is not 2xx. The run logs that
POST alone and ends with `loading` false and `error` still null, so no failure
message is surfaced; the same POST failing by a transport failure does store
the generic message. An analysis POST answered with a status that is not 2xx,
the reads succeeding, leaves `error` null as well. -/
theorem C9_refused_ingestion_surfaces_no_message :
    sampleWorld.vm.error = none ∧
    envIngestionRefused.bulkFetch = .response false ∧
    envIngestionRefused.bulkFetch.isFailure = true ∧
    (fetchSampleNews filtersA envIngestionRefused sampleWorld).1.issued = [.postBulkFetch] ∧
    (fetchSampleNews filtersA envIngestionRefused sampleWorld).1.vm.loading = false ∧
    (fetchSampleNews filtersA envIngestionRefused sampleWorld).1.vm.error = none ∧
    (fetchSampleNews filtersA envIngestionUnreachable sampleWorld).1.vm.error
      = some "Failed to fetch sample news" ∧
    envAnalysisRefused.analyze.isFailure = true ∧
    (fetchSampleNews filtersA envAnalysisRefused sampleWorld).1.vm.error = none := by
  decide

/-- C10: for every prior state and every failure of the ingestion POST
(status not 2xx or transport failure), the run of `fetchSampleNews` logs the
ingestion POST and nothing after it, so neither the analysis POST nor any of
the three reads is issued; `articles`, `trendingKeywords` and `categoryStats`
are as before; `loading` ends false; the call ends normally. -/
theorem C10_failed_ingestion_aborts_chain (filters : Filters) (env : Env) (w : World)
    (hfail : env.bulkFetch.isFailure = true) :
    (fetchSampleNews filters env w).1.issued = w.issued ++ [.postBulkFetch] ∧
    (fetchSampleNews filters env w).1.vm.articles = w.vm.articles ∧
    (fetchSampleNews filters env w).1.vm.trendingKeywords = w.vm.trendingKeywords ∧
    (fetchSampleNews filters env w).1.vm.categoryStats = w.vm.categoryStats ∧
    (fetchSampleNews filters env w).1.vm.loading = false ∧
    (fetchSampleNews filters env w).2 = .normal := by
  cases hb : env.bulkFetch with
  | rejected m =>
      rw [fetchSampleNews_ingestion_rejected filters env w m hb]
      exact ⟨rfl, rfl, rfl, rfl, rfl, rfl⟩
  | response ok =>
      cases ok with
      | true => rw [hb] at hfail; simp [PostOutcome.isFailure] at hfail
      | false =>
          rw [fetchSampleNews_ingestion_refused filters env w hb]
          exact ⟨rfl, rfl, rfl, rfl, rfl, rfl⟩

/-- Witness of C10: the ingestion POST is answered with a status that is not
2xx on a state that holds articles, keywords and statistics. -/
theorem C10_failed_ingestion_aborts_chain_witness :
    envIngestionRefused.bulkFetch.isFailure = true ∧
    (fetchSampleNews filtersA envIngestionRefused sampleWorld).1.issued = [.postBulkFetch] ∧
    (fetchSampleNews filtersA envIngestionRefused sampleWorld).1.vm.articles
      = [sampleArticleA] ∧
    (fetchSampleNews filtersA envIngestionRefused sampleWorld).1.vm.loading = false :=
  ⟨by decide,
    (C10_failed_ingestion_aborts_chain filtersA envIngestionRefused sampleWorld
      (by decide)).1,
    (C10_failed_ingestion_aborts_chain filtersA envIngestionRefused sampleWorld
      (by decide)).2.1,
    (C10_failed_ingestion_aborts_chain filtersA envIngestionRefused sampleWorld
      (by decide)).2.2.2.2.1⟩

/-! ### The category bars -/

/-- Every count is at most the divisor. -/
theorem le_mathMax (counts : List Nat) (c : Nat) (h : c ∈ counts) : c ≤ mathMax counts := by
  induction counts with
  | nil => simp at h
  | cons a rest ih =>
      rcases List.mem_cons.mp h with h | h
      · subst h
        exact le_max_left _ _
      · exact le_trans (ih h) (le_max_right _ _)

/-- The divisor is one of the counts when there is one. -/
theorem mathMax_mem (counts : List Nat) (h : counts ≠ []) : mathMax counts ∈ counts := by
  induction counts with
  | nil => exact absurd rfl h
  | cons a rest ih =>
      by_cases hr : rest = []
      · subst hr
        simp [mathMax]
      · have hm := ih hr
        show max a (mathMax rest) ∈ a :: rest
        rcases max_choice a (mathMax rest) with e | e
        · rw [e]; exact List.mem_cons_self _ _
        · rw [e]; exact List.mem_cons_of_mem _ hm

/-- With a positive divisor the width is the clamped, rounded quotient. -/
theorem barWidth_of_pos (fl : ℚ → ℚ) (categoryStats : List CategoryStat) (stat : CategoryStat)
    (hmax : 0 < mathMax (categoryStats.map fun s => s.count)) :
    barWidth fl categoryStats stat =
      .finite (min (fl (fl ((stat.count : ℚ) /
        ((mathMax (categoryStats.map fun s => s.count) : Nat) : ℚ)) * 100)) 100) := by
  have h : mathMax (categoryStats.map fun s => s.count) ≠ 0 := Nat.pos_iff_ne_zero.mp hmax
  simp only [barWidth, jsDivide, h, if_false, jsTimes100, mathMin100]

/-- C11 (the code at the failing input): for the list of statistics whose two
counts are zero, the divisor `Math.max(...)` is 0, nothing guards it, and the
width computed for each entry is `NaN`, whatever the rounding. -/
theorem C11_all_zero_counts_give_nan_width (fl : ℚ → ℚ) :
    allZeroStats ≠ [] ∧
    mathMax (allZeroStats.map fun s => s.count) = 0 ∧
    barWidths fl allZeroStats = [.nan, .nan] := by
  refine ⟨by decide, rfl, rfl⟩

/-- C12: for every non-empty list of category statistics with a positive
maximum count, the divisor is the maximum of the counts, the width of each
entry is min(count / maximum × 100, 100), the operations rounded to Numbers
(and exactly that value in exact arithmetic, where the clamp cuts nothing), it
lies between 0 and 100, it is exactly 100 for an entry that holds the maximum,
and the statistics tech 10, biz 5 get the widths 100 and 50. -/
theorem C12_bar_width_is_clamped_share (fl : ℚ → ℚ) (hfl : RoundsToNearest fl)
    (categoryStats : List CategoryStat) (stat : CategoryStat) (hmem : stat ∈ categoryStats)
    (hmax : 0 < mathMax (categoryStats.map fun s => s.count)) :
    ((∀ s ∈ categoryStats, s.count ≤ mathMax (categoryStats.map fun s => s.count)) ∧
      ∃ s ∈ categoryStats, s.count = mathMax (categoryStats.map fun s => s.count)) ∧
    barWidth fl categoryStats stat =
      .finite (min (fl (fl ((stat.count : ℚ) /
        ((mathMax (categoryStats.map fun s => s.count) : Nat) : ℚ)) * 100)) 100) ∧
    barWidth id categoryStats stat =
      .finite (min ((stat.count : ℚ) /
        ((mathMax (categoryStats.map fun s => s.count) : Nat) : ℚ) * 100) 100) ∧
    barWidth id categoryStats stat =
      .finite ((stat.count : ℚ) /
        ((mathMax (categoryStats.map fun s => s.count) : Nat) : ℚ) * 100) ∧
    (∃ w, barWidth fl categoryStats stat = .finite w ∧ 0 ≤ w ∧ w ≤ 100) ∧
    (stat.count = mathMax (categoryStats.map fun s => s.count) →
      barWidth fl categoryStats stat = .finite 100) ∧
    barWidths fl exampleStats = [.finite 100, .finite 50] := by
  obtain ⟨hmono, h0, hhalf, h1, h50, h100⟩ := hfl
  have hM : ((mathMax (categoryStats.map fun s => s.count) : Nat) : ℚ) ≠ 0 := by
    exact_mod_cast Nat.pos_iff_ne_zero.mp hmax
  have hMpos : (0 : ℚ) < ((mathMax (categoryStats.map fun s => s.count) : Nat) : ℚ) := by
    exact_mod_cast hmax
  have hle : (stat.count : ℚ) ≤ ((mathMax (categoryStats.map fun s => s.count) : Nat) : ℚ) := by
    exact_mod_cast le_mathMax _ _ (List.mem_map_of_mem (fun s => s.count) hmem)
  refine ⟨⟨?_, ?_⟩, barWidth_of_pos fl categoryStats stat hmax,
    barWidth_of_pos id categoryStats stat hmax, ?_, ?_, ?_, ?_⟩
  rotate_left 2
  · rw [barWidth_of_pos id categoryStats stat hmax]
    have hq : (stat.count : ℚ) /
        ((mathMax (categoryStats.map fun s => s.count) : Nat) : ℚ) ≤ 1 :=
      (div_le_one hMpos).mpr hle
    have hp : (stat.count : ℚ) /
        ((mathMax (categoryStats.map fun s => s.count) : Nat) : ℚ) * 100 ≤ 100 := by
      nlinarith
    simp only [id, min_eq_left hp]
  rotate_right 2
  · intro s hs
    exact le_mathMax _ _ (List.mem_map_of_mem (fun s => s.count) hs)
  · have hne : (categoryStats.map fun s => s.count) ≠ [] := by
      intro e
      rw [e] at hmax
      exact absurd hmax (by decide)
    obtain ⟨s, hs, e⟩ := List.mem_map.mp (mathMax_mem _ hne)
    exact ⟨s, hs, e⟩
  · refine ⟨_, barWidth_of_pos fl categoryStats stat hmax, ?_, min_le_right _ _⟩
    have hq : (0 : ℚ) ≤ (stat.count : ℚ) /
        ((mathMax (categoryStats.map fun s => s.count) : Nat) : ℚ) :=
      div_nonneg (Nat.cast_nonneg _) (Nat.cast_nonneg _)
    have hf : (0 : ℚ) ≤ fl ((stat.count : ℚ) /
        ((mathMax (categoryStats.map fun s => s.count) : Nat) : ℚ)) := by
      have := hmono hq
      rwa [h0] at this
    have hp : (0 : ℚ) ≤ fl (fl ((stat.count : ℚ) /
        ((mathMax (categoryStats.map fun s => s.count) : Nat) : ℚ)) * 100) := by
      have := hmono (mul_nonneg hf (by norm_num : (0 : ℚ) ≤ 100))
      rwa [h0] at this
    exact le_min hp (by norm_num)
  · intro e
    rw [barWidth_of_pos fl categoryStats stat hmax, e, div_self hM, h1, one_mul, h100, min_self]
  · have e : barWidths fl exampleStats =
        [.finite (min (fl (fl ((10 : ℚ) / 10) * 100)) 100),
          .finite (min (fl (fl ((5 : ℚ) / 10) * 100)) 100)] := by
      simp [barWidths, exampleStats, barWidth, jsDivide, mathMax, jsTimes100, mathMin100]
    rw [e]
    have e1 : ((10 : ℚ) / 10) = 1 := by norm_num
    have e2 : ((5 : ℚ) / 10) = 1 / 2 := by norm_num
    have e3 : ((1 : ℚ) / 2 * 100) = 50 := by norm_num
    rw [e1, e2, h1, hhalf, one_mul, e3, h100, h50]
    norm_num

/-- Exact arithmetic is a rounding in the sense of `RoundsToNearest`. -/
theorem roundsToNearest_id : RoundsToNearest id :=
  ⟨monotone_id, rfl, rfl, rfl, rfl, rfl⟩

/-- Witness of C12: the business entry of the example, in exact arithmetic, has
a width between 0 and 100. -/
theorem C12_bar_width_is_clamped_share_witness :
    (⟨"biz", 5⟩ : CategoryStat) ∈ exampleStats ∧
    0 < mathMax (exampleStats.map fun s => s.count) ∧
    (∃ w, barWidth id exampleStats ⟨"biz", 5⟩ = .finite w ∧ 0 ≤ w ∧ w ≤ 100) ∧
    barWidths id exampleStats = [.finite 100, .finite 50] :=
  ⟨by decide, by decide,
    (C12_bar_width_is_clamped_share id roundsToNearest_id exampleStats ⟨"biz", 5⟩
      (by decide) (by decide)).2.2.2.2.1,
    (C12_bar_width_is_clamped_share id roundsToNearest_id exampleStats ⟨"biz", 5⟩
      (by decide) (by decide)).2.2.2.2.2.2⟩

/-! ### Repeating a category click -/

/-- Writing the same value to the same key twice is writing it once. -/
theorem assignProp_idem (l : List (String × String)) (key value : String) :
    assignProp (assignProp l key value) key value = assignProp l key value := by
  induction l with
  | nil => simp [assignProp]
  | cons p rest ih =>
      obtain ⟨k, v⟩ := p
      by_cases h : k = key
      · simp [assignProp, h]
      · simp [assignProp, h, ih]

/-- A trending response applies when its request is a trending read in flight. -/
theorem step_trendingSettled (s : Sys) (id : Nat) (o : ReadOutcome (List TrendingKeyword))
    (hp : id ∈ s.pending) (hq : s.world.issued.get? id = some .getTrendingKeywords) :
    step s (.trendingSettled id o) =
      some { world := (fetchTrendingKeywordsSettle o s.world).1,
             pending := s.pending.erase id } := by
  simp only [step, hp, hq, and_self, if_true]

/-- A statistics response applies when its request is a statistics read in
flight. -/
theorem step_statsSettled (s : Sys) (id : Nat) (o : ReadOutcome (List CategoryStat))
    (hp : id ∈ s.pending) (hq : s.world.issued.get? id = some .getCategoryStats) :
    step s (.statsSettled id o) =
      some { world := (fetchCategoryStatsSettle o s.world).1,
             pending := s.pending.erase id } := by
  simp only [step, hp, hq, and_self, if_true]

/-- No continuation of a read issues a request. -/
theorem settle_issued (oa : ReadOutcome (List Article)) (ot : ReadOutcome (List TrendingKeyword))
    (oc : ReadOutcome (List CategoryStat)) (w : World) :
    (fetchArticlesSettle oa w).1.issued = w.issued ∧
    (fetchTrendingKeywordsSettle ot w).1.issued = w.issued ∧
    (fetchCategoryStatsSettle oc w).1.issued = w.issued := by
  refine ⟨?_, ?_, ?_⟩
  · cases oa <;> rfl
  · cases ot <;> rfl
  · cases oc <;> rfl

/-- The log after a cycle: the three reads of the cycle follow what was there. -/
theorem afterCycle_issued (f : Filters) (oa : ReadOutcome (List Article))
    (ot : ReadOutcome (List TrendingKeyword)) (oc : ReadOutcome (List CategoryStat))
    (s : Sys) :
    (afterCycle f oa ot oc s).issued =
      s.world.issued ++ [.getArticles (buildParams f), .getTrendingKeywords,
        .getCategoryStats] := by
  unfold afterCycle
  rw [(settle_issued oa ot oc _).2.2, (settle_issued oa ot oc _).2.1,
    (settle_issued oa ot oc _).1, runEffect_eq]

/-- The filters after a cycle are the ones the cycle started with. -/
theorem afterCycle_filters (f : Filters) (oa : ReadOutcome (List Article))
    (ot : ReadOutcome (List TrendingKeyword)) (oc : ReadOutcome (List CategoryStat))
    (s : Sys) :
    (afterCycle f oa ot oc s).vm.filters = f := by
  cases oa <;> cases ot <;> cases oc <;> rfl

/-- A second cycle with the same filters and the same responses leaves the
state of the component as the first cycle left it. -/
theorem afterCycle_vm_idem (f : Filters) (oa : ReadOutcome (List Article))
    (ot : ReadOutcome (List TrendingKeyword)) (oc : ReadOutcome (List CategoryStat))
    (s : Sys) (pending : List Nat) :
    (afterCycle f oa ot oc { world := afterCycle f oa ot oc s, pending := pending }).vm =
      (afterCycle f oa ot oc s).vm := by
  cases oa <;> cases ot <;> cases oc <;> rfl

/-- A cycle runs: every one of its events applies, and the state it ends in is
`afterCycle`. -/
theorem run_refetchCycle (f : Filters) (oa : ReadOutcome (List Article))
    (ot : ReadOutcome (List TrendingKeyword)) (oc : ReadOutcome (List CategoryStat))
    (s : Sys) :
    ∃ pending, run s (refetchCycle f s.world.issued.length oa ot oc) =
      some { world := afterCycle f oa ot oc s, pending := pending } := by
  -- the state after the filter change
  obtain ⟨s0, hs0, hiss, hpend⟩ : ∃ s0 : Sys,
      s0 = runEffect
        { s with world := { s.world with vm := { s.world.vm with filters := f } } } ∧
      s0.world.issued = s.world.issued ++
        [.getArticles (buildParams f), .getTrendingKeywords, .getCategoryStats] ∧
      s0.pending = s.pending ++
        [s.world.issued.length, s.world.issued.length + 1, s.world.issued.length + 2] :=
    ⟨_, rfl, by simp [runEffect_eq], by simp [runEffect_eq]⟩
  have look : ∀ k, s0.world.issued.get? (s.world.issued.length + k) =
      [Request.getArticles (buildParams f), Request.getTrendingKeywords,
        Request.getCategoryStats].get? k := by
    intro k
    rw [hiss, get?_append_offset]
  have hA : step s0 (.articlesSettled s.world.issued.length oa) =
      some { world := (fetchArticlesSettle oa s0.world).1,
             pending := s0.pending.erase s.world.issued.length } := by
    apply step_articlesSettled s0 _ _ (buildParams f)
    · rw [hpend]; simp
    · simpa using look 0
  have hT : step { world := (fetchArticlesSettle oa s0.world).1,
                   pending := s0.pending.erase s.world.issued.length }
        (.trendingSettled (s.world.issued.length + 1) ot) =
      some { world := (fetchTrendingKeywordsSettle ot (fetchArticlesSettle oa s0.world).1).1,
             pending := (s0.pending.erase s.world.issued.length).erase
               (s.world.issued.length + 1) } := by
    apply step_trendingSettled
    · show s.world.issued.length + 1 ∈ s0.pending.erase s.world.issued.length
      rw [List.mem_erase_of_ne (by omega), hpend]
      simp
    · show (fetchArticlesSettle oa s0.world).1.issued.get? (s.world.issued.length + 1) = _
      rw [(settle_issued oa ot oc _).1, look 1]
      rfl
  have hC : step { world := (fetchTrendingKeywordsSettle ot
                      (fetchArticlesSettle oa s0.world).1).1,
                   pending := (s0.pending.erase s.world.issued.length).erase
                     (s.world.issued.length + 1) }
        (.statsSettled (s.world.issued.length + 2) oc) =
      some { world := (fetchCategoryStatsSettle oc (fetchTrendingKeywordsSettle ot
                        (fetchArticlesSettle oa s0.world).1).1).1,
             pending := ((s0.pending.erase s.world.issued.length).erase
               (s.world.issued.length + 1)).erase (s.world.issued.length + 2) } := by
    apply step_statsSettled
    · show s.world.issued.length + 2 ∈
        (s0.pending.erase s.world.issued.length).erase (s.world.issued.length + 1)
      rw [List.mem_erase_of_ne (by omega), List.mem_erase_of_ne (by omega), hpend]
      simp
    · show (fetchTrendingKeywordsSettle ot (fetchArticlesSettle oa s0.world).1).1.issued.get?
        (s.world.issued.length + 2) = _
      rw [(settle_issued oa ot oc _).2.1, (settle_issued oa ot oc _).1, look 2]
      rfl
  refine ⟨((s0.pending.erase s.world.issued.length).erase
    (s.world.issued.length + 1)).erase (s.world.issued.length + 2), ?_⟩
  show (step s (.setFilters f)).bind (fun s0 =>
    (step s0 (.articlesSettled s.world.issued.length oa)).bind (fun s1 =>
      (step s1 (.trendingSettled (s.world.issued.length + 1) ot)).bind (fun s2 =>
        (step s2 (.statsSettled (s.world.issued.length + 2) oc)).bind
          (fun s3 => some s3)))) = _
  rw [step_setFilters, Option.some_bind, ← hs0, hA, Option.some_bind, hT, Option.some_bind,
    hC, Option.some_bind]
  simp only [afterCycle, hs0]

/-- C13 (as stated, refuted): at the start of the application one call of
`handleCategoryFilter("all")` starts the three reads, and a second call right
after it starts the same three reads once more. -/
theorem C13_second_all_click_starts_another_cycle :
    (run initialSys [.setFilters (handleCategoryFilter "all" initialFilters)]).map
        (fun s => s.world.issued)
      = some [.getArticles [], .getTrendingKeywords, .getCategoryStats] ∧
    (run initialSys [.setFilters (handleCategoryFilter "all" initialFilters),
        .setFilters (handleCategoryFilter "all"
          (handleCategoryFilter "all" initialFilters))]).map
        (fun s => s.world.issued)
      = some [.getArticles [], .getTrendingKeywords, .getCategoryStats,
              .getArticles [], .getTrendingKeywords, .getCategoryStats] := by
  decide

/-- C13 (amended): for every state, a second `handleCategoryFilter("all")`
yields the filter and the article query of the first; the first call starts
one cycle of the three reads and the second call starts one more cycle of the
same three reads; when the reads of the second cycle get the responses that
those of the first got, the state of the component after the second cycle,
`error` included, is the state after the first. -/
theorem C13_second_all_click_repeats_cycle_with_same_state (s : Sys)
    (oa : ReadOutcome (List Article)) (ot : ReadOutcome (List TrendingKeyword))
    (oc : ReadOutcome (List CategoryStat)) :
    handleCategoryFilter "all" (handleCategoryFilter "all" s.world.vm.filters) =
      handleCategoryFilter "all" s.world.vm.filters ∧
    buildParams (handleCategoryFilter "all" (handleCategoryFilter "all" s.world.vm.filters)) =
      buildParams (handleCategoryFilter "all" s.world.vm.filters) ∧
    ∃ s1 s2,
      run s (refetchCycle (handleCategoryFilter "all" s.world.vm.filters)
        s.world.issued.length oa ot oc) = some s1 ∧
      run s1 (refetchCycle (handleCategoryFilter "all" s1.world.vm.filters)
        s1.world.issued.length oa ot oc) = some s2 ∧
      s1.world.issued = s.world.issued ++
        [.getArticles (buildParams (handleCategoryFilter "all" s.world.vm.filters)),
          .getTrendingKeywords, .getCategoryStats] ∧
      s2.world.issued = s1.world.issued ++
        [.getArticles (buildParams (handleCategoryFilter "all" s.world.vm.filters)),
          .getTrendingKeywords, .getCategoryStats] ∧
      s2.world.vm = s1.world.vm := by
  have hidem : handleCategoryFilter "all" (handleCategoryFilter "all" s.world.vm.filters) =
      handleCategoryFilter "all" s.world.vm.filters := by
    simp only [handleCategoryFilter, Filters.spreadWith, assignProp_idem]
  refine ⟨hidem, by rw [hidem], ?_⟩
  obtain ⟨p1, h1⟩ := run_refetchCycle (handleCategoryFilter "all" s.world.vm.filters)
    oa ot oc s
  obtain ⟨p2, h2⟩ := run_refetchCycle (handleCategoryFilter "all" s.world.vm.filters)
    oa ot oc
    { world := afterCycle (handleCategoryFilter "all" s.world.vm.filters) oa ot oc s,
      pending := p1 }
  refine ⟨{ world := afterCycle (handleCategoryFilter "all" s.world.vm.filters) oa ot oc s,
            pending := p1 },
    { world := afterCycle (handleCategoryFilter "all" s.world.vm.filters) oa ot oc
        { world := afterCycle (handleCategoryFilter "all" s.world.vm.filters) oa ot oc s,
          pending := p1 },
      pending := p2 },
    h1, ?_, afterCycle_issued _ oa ot oc s, ?_, ?_⟩
  · show run _ (refetchCycle (handleCategoryFilter "all"
      (afterCycle (handleCategoryFilter "all" s.world.vm.filters) oa ot oc s).vm.filters)
      _ oa ot oc) = _
    rw [afterCycle_filters, hidem]
    exact h2
  · exact afterCycle_issued _ oa ot oc _
  · exact afterCycle_vm_idem _ oa ot oc s p1

/-! ### Selection and the modal -/

/-- C14: for every state and articles `a` and `b`, `handleReadMore(a)` sets
`selectedArticle` to `a` and opens the modal; `onClose` right after it leaves
the modal closed; a later `handleReadMore(b)` ends normally with
`selectedArticle` equal to `b` and the modal open; and neither handler, on any
state, changes `articles`, `loading`, `error`, `filters`, `trendingKeywords` or
`categoryStats` or adds a request to the log. -/
theorem C14_select_dismiss_select (w : World) (a b : Article) :
    ((handleReadMore a w).2 = .normal ∧
      (handleReadMore a w).1.vm.selectedArticle = some a ∧
      (handleReadMore a w).1.vm.isModalOpen = true) ∧
    ((onClose (handleReadMore a w).1).2 = .normal ∧
      (onClose (handleReadMore a w).1).1.vm.isModalOpen = false) ∧
    ((handleReadMore b (onClose (handleReadMore a w).1).1).2 = .normal ∧
      (handleReadMore b (onClose (handleReadMore a w).1).1).1.vm.selectedArticle = some b ∧
      (handleReadMore b (onClose (handleReadMore a w).1).1).1.vm.isModalOpen = true) ∧
    ((handleReadMore a w).1.issued = w.issued ∧
      { (handleReadMore a w).1.vm with
          selectedArticle := w.vm.selectedArticle, isModalOpen := w.vm.isModalOpen } = w.vm) ∧
    ((onClose w).1.issued = w.issued ∧
      { (onClose w).1.vm with isModalOpen := w.vm.isModalOpen } = w.vm) ∧
    ((handleReadMore b (onClose (handleReadMore a w).1).1).1.issued = w.issued ∧
      { (handleReadMore b (onClose (handleReadMore a w).1).1).1.vm with
          selectedArticle := w.vm.selectedArticle, isModalOpen := w.vm.isModalOpen } = w.vm) :=
  ⟨⟨rfl, rfl, rfl⟩, ⟨rfl, rfl⟩, ⟨rfl, rfl, rfl⟩, ⟨rfl, rfl⟩, ⟨rfl, rfl⟩, ⟨rfl, rfl⟩⟩

/-! ### The view after a failed read -/

/-- C15 (the code at the failing input): at the start of the application an
article read succeeds with one article, then an article read fails with a
response that is not ok. The state then holds the error with `loading` false
and still the article of the first read; `App` renders the error panel, no
card, and a count line that says 1, the length of the list fetched before. -/
theorem C15_error_view_shows_stale_count :
    (fetchArticles filtersA .notOk
        (fetchArticles filtersA (.ok (some [sampleArticleA])) initialSys.world).1).1.vm.error
      = some "Failed to fetch articles" ∧
    (fetchArticles filtersA .notOk
        (fetchArticles filtersA (.ok (some [sampleArticleA])) initialSys.world).1).1.vm.loading
      = false ∧
    (fetchArticles filtersA .notOk
        (fetchArticles filtersA (.ok (some [sampleArticleA])) initialSys.world).1).1.vm.articles
      = [sampleArticleA] ∧
    (renderApp (fetchArticles filtersA .notOk
        (fetchArticles filtersA (.ok (some [sampleArticleA])) initialSys.world).1).1.vm).content
      = .errorPanel "Failed to fetch articles" ∧
    (renderApp (fetchArticles filtersA .notOk
        (fetchArticles filtersA (.ok (some [sampleArticleA])) initialSys.world).1).1.vm).articleCount
      = 1 := by
  decide

/-! ### The exact shape of the article query -/

/-- One optional parameter of the query, as the code builds it and as the
interface describes it. -/
theorem param_eq_described (f : Filters) (name : String) (extra : Bool)
    (hextra : extra = decide (¬ (name = "category" ∧ f.get name = some "all"))) :
    (if truthy (f.get name) && extra then [(name, (f.get name).getD "")] else []) =
      (match f.get name with
        | some value =>
            if value ≠ "" ∧ ¬ (name = "category" ∧ value = "all") then some (name, value)
            else none
        | none => none).toList := by
  subst hextra
  cases h : f.get name with
  | none => simp [truthy]
  | some v =>
      by_cases hv : v = ""
      · simp [truthy, hv]
      · by_cases hc : name = "category" ∧ v = "all"
        · simp [truthy, hv, hc]
        · simp [truthy, hv, hc]

/-- The query that the code builds is the one the interface describes. -/
theorem buildParams_eq_describedQuery (f : Filters) :
    buildParams f = describedQuery f := by
  have hs := param_eq_described f "search" true (by simp)
  have hc := param_eq_described f "category"
    (decide (f.get "category" ≠ some "all")) (by simp)
  have hn := param_eq_described f "sentiment" true (by simp)
  have ho := param_eq_described f "source" true (by simp)
  simp only [Bool.and_true] at hs hn ho
  rw [buildParams_eq, hs, hc, hn, ho]
  simp only [describedQuery, filterFieldNames, List.filterMap_cons, List.filterMap_nil]
  cases f.get "search" <;> cases f.get "category" <;> cases f.get "sentiment" <;>
    cases f.get "source" <;> simp <;> split_ifs <;> simp

/-- A write to a key outside the four leaves the four reads of `fetchArticles`
as they were, and with them the query. -/
theorem buildParams_spreadWith_other (f : Filters) (name value : String)
    (h : name ∉ filterFieldNames) :
    buildParams (f.spreadWith name value) = buildParams f := by
  have h1 : "search" ≠ name := fun e => h (by rw [← e]; decide)
  have h2 : "category" ≠ name := fun e => h (by rw [← e]; decide)
  have h3 : "sentiment" ≠ name := fun e => h (by rw [← e]; decide)
  have h4 : "source" ≠ name := fun e => h (by rw [← e]; decide)
  simp only [buildParams, get_spreadWith_other f name value _ h1,
    get_spreadWith_other f name value _ h2, get_spreadWith_other f name value _ h3,
    get_spreadWith_other f name value _ h4]

/-- C16: for every filter record, the query of `fetchArticles` is the one
described: in the order search, category, sentiment, source, one parameter
for each field whose value is not empty and, for the category, not "all". Its
names are a sublist of those four, so each occurs at most once, in that order,
and there is no other; every parameter holds the value of its field; and a
field written through `handleFilterChange` with a name outside the four, such
as the `fake` and `recent` of the quick filters, leaves the query unchanged. -/
theorem C16_query_has_exactly_described_shape (f : Filters) :
    buildParams f = describedQuery f ∧
    (paramNames (buildParams f)).Sublist filterFieldNames ∧
    (∀ name value, (name, value) ∈ buildParams f →
      name ∈ filterFieldNames ∧ f.get name = some value ∧ value ≠ "" ∧
      ¬ (name = "category" ∧ value = "all")) ∧
    (∀ name value, name ∉ filterFieldNames →
      buildParams (handleFilterChange name value f) = buildParams f) ∧
    buildParams (handleFilterChange "fake" "false" f) = buildParams f ∧
    buildParams (handleFilterChange "recent" "today" f) = buildParams f := by
  refine ⟨buildParams_eq_describedQuery f, ?_, ?_,
    fun name value h => buildParams_spreadWith_other f name value h,
    buildParams_spreadWith_other f _ _ (by decide),
    buildParams_spreadWith_other f _ _ (by decide)⟩
  · rw [buildParams_eq]
    unfold paramNames filterFieldNames
    split_ifs <;>
      simp only [List.map_append, List.map_cons, List.map_nil, List.nil_append,
        List.cons_append, List.append_nil] <;>
      decide
  · intro name value hmem
    rw [buildParams_eq_describedQuery] at hmem
    obtain ⟨key, hkey, hsome⟩ := List.mem_filterMap.mp hmem
    cases hget : f.get key with
    | none => simp [hget] at hsome
    | some v =>
        simp only [hget] at hsome
        split_ifs at hsome with hcond
        obtain ⟨rfl, rfl⟩ := Prod.mk.inj (Option.some.inj hsome)
        exact ⟨hkey, hget, hcond.1, hcond.2⟩

/-- Witness of C16: the quick filter "Verified Only" on a filter with a search
and a category leaves the query as it was, and the query holds the search and
the category. -/
theorem C16_query_has_exactly_described_shape_witness :
    "fake" ∉ filterFieldNames ∧
    buildParams (handleFilterChange "fake" "false" (handleSearch "ai" filtersA)) =
      buildParams (handleSearch "ai" filtersA) ∧
    buildParams (handleSearch "ai" filtersA) = [("search", "ai"), ("category", "technology")] :=
  ⟨by decide,
    (C16_query_has_exactly_described_shape (handleSearch "ai" filtersA)).2.2.2.1
      "fake" "false" (by decide),
    (C16_query_has_exactly_described_shape (handleSearch "ai" filtersA)).1.trans (by decide)⟩

end NewsApp
